import Mathlib

/-!
Verification of the address-validator service core.

The development shallowly embeds the provider-result interpretation and
resilience layer of the address validator:

* the address normalizer `normalizeAddressForComparison`
  (`SmartyAddressProvider.normalizeAddressForComparison`),
* the status classifier `determineValidationStatus`
  (`SmartyAddressProvider.determineValidationStatus`),
* the provider adapter `validateAddressTyped`
  (`SmartyAddressProvider.validateAddress`, the revision that raises the
  typed error taxonomy, which is the revision exercised by the test suite)
  and `validateAddressLegacy` (the revision returning
  `ProviderValidationResult` records),
* the validation orchestrator `serviceValidateAddress`
  (`AddressValidationService.validateAddress`),
* the resilience gate `breakerFire`, modelled from the spec because the
  breaker itself is the external `opossum` library, not repository code.

JavaScript strings are modelled as Lean `String`s (lists of Unicode scalar
values).  `String.prototype.toLowerCase` is modelled per character by
`lowerCharJS`: the ASCII capitals map down by 32, and the two code points
whose Unicode lowercase meets the regex class `\w` (`[A-Za-z0-9_]`) are
mapped as toLowerCase maps them — U+212A (KELVIN SIGN) to `k`, and U+0130
(LATIN CAPITAL LETTER I WITH DOT ABOVE) to `i` followed by the combining
dot above U+0307.  Every other code point's lowercase stays outside both
`\w` and `\s` (no case mapping produces whitespace), and the replacement
step of the normalizer sends the character and its lowercase alike to a
space, so those mappings are modelled as the identity.
-/

/-! ## Character classes of the JavaScript regexes -/

/-- Membership in the JavaScript regex class `\w`, which is exactly
`[A-Za-z0-9_]`.  Note that the underscore (code 95) is a word character. -/
def IsWordCharJS (c : Char) : Prop :=
  (65 ≤ c.toNat ∧ c.toNat ≤ 90) ∨ (97 ≤ c.toNat ∧ c.toNat ≤ 122) ∨
    (48 ≤ c.toNat ∧ c.toNat ≤ 57) ∨ c.toNat = 95

instance (c : Char) : Decidable (IsWordCharJS c) := by
  unfold IsWordCharJS; infer_instance

/-- Membership in the JavaScript regex class `\s`: space, the control
whitespace characters, and the Unicode space separators recognised by
ECMAScript (including the no-break space, the ogham space mark, the en
quad .. hair space range, line and paragraph separators, the narrow
no-break space, the medium mathematical space, the ideographic space and
the byte-order mark). -/
def IsSpaceJS (c : Char) : Prop :=
  c.toNat = 32 ∨ (9 ≤ c.toNat ∧ c.toNat ≤ 13) ∨ c.toNat = 160 ∨
    c.toNat = 5760 ∨ (8192 ≤ c.toNat ∧ c.toNat ≤ 8202) ∨ c.toNat = 8232 ∨
    c.toNat = 8233 ∨ c.toNat = 8239 ∨ c.toNat = 8287 ∨ c.toNat = 12288 ∨
    c.toNat = 65279

instance (c : Char) : Decidable (IsSpaceJS c) := by
  unfold IsSpaceJS; infer_instance

/-- The space character U+0020 produced by the replacements. -/
def spaceChar : Char := Char.ofNat 32

/-- Model of `String.prototype.toLowerCase` on one character.  An
upper-case ASCII letter shifts down by 32; U+212A (KELVIN SIGN) lowercases
to `k` (code 107) and U+0130 (LATIN CAPITAL LETTER I WITH DOT ABOVE) to
`i` (code 105) followed by the combining dot above (code 775) — the only
Unicode code points whose lowercase contains a `\w` word character.  Every
other character is mapped to itself: its real lowercase stays outside both
`\w` and `\s`, where the normalizer's replacement step makes the character
and its lowercase indistinguishable. -/
def lowerCharJS (c : Char) : List Char :=
  if 65 ≤ c.toNat ∧ c.toNat ≤ 90 then [Char.ofNat (c.toNat + 32)]
  else if c.toNat = 8490 then [Char.ofNat 107]
  else if c.toNat = 304 then [Char.ofNat 105, Char.ofNat 775]
  else [c]

/-- Model of `.replace(/[^\w\s]/g, ' ')` on one character: a character that
is neither a word character nor a whitespace character becomes a space. -/
def replaceCharJS (c : Char) : Char :=
  if IsWordCharJS c ∨ IsSpaceJS c then c else spaceChar

/-- Model of `.replace(/\s+/g, ' ')`: every maximal run of whitespace
characters is replaced by a single space.  The boolean flag records whether
the previously scanned character belonged to a whitespace run. -/
def collapseWS : Bool → List Char → List Char
  | _, [] => []
  | false, c :: cs =>
    if IsSpaceJS c then spaceChar :: collapseWS true cs
    else c :: collapseWS false cs
  | true, c :: cs =>
    if IsSpaceJS c then collapseWS true cs
    else c :: collapseWS false cs

/-- Boolean form of `IsSpaceJS`, used by the trimming steps. -/
def isSpaceB (c : Char) : Bool := decide (IsSpaceJS c)

/-- Model of `String.prototype.trim`: whitespace is removed from both ends. -/
def trimJS (l : List Char) : List Char :=
  ((l.dropWhile isSpaceB).reverse.dropWhile isSpaceB).reverse

/-- Absence of two adjacent whitespace characters: the shape guaranteed by
the whitespace-collapsing step. -/
def NoSpaceRun (l : List Char) : Prop :=
  l.Chain' fun a b => ¬(IsSpaceJS a ∧ IsSpaceJS b)

/-- Embedding of `SmartyAddressProvider.normalizeAddressForComparison`
(src/unnamed/part_004, identical in all three provider revisions):
lower-case the string, replace every character matching `[^\w\s]` by a
space, collapse every whitespace run to a single space, and trim. -/
def normalizeAddressForComparison (address : String) : String :=
  ⟨trimJS (collapseWS false ((address.data.flatMap lowerCharJS).map replaceCharJS))⟩

/-- Model of `String.prototype.trim` on strings, as used by the
orchestrator on its input. -/
def trimString (s : String) : String := ⟨trimJS s.data⟩

/-! ## Data model of the provider payload and results -/

/-- Validation status enumeration from src/src/types/index.ts. -/
inductive ValidationStatus
  | valid
  | corrected
  | unverifiable
  | invalid
  deriving DecidableEq, Repr

/-- The `analysis` record of a Smarty candidate; only the DPV match code is
consulted by the classifier.  A missing `dpvMatchCode` behaves like any
string other than Y/S/D and lands in the default arm of the switch. -/
structure DpvAnalysis where
  dpvMatchCode : String
  deriving DecidableEq, Repr

/-- The `components` record of a Smarty candidate.  The JavaScript fields
are strings that may be absent; absence and the empty string are both falsy
in the source (`|| ''`, `filter(Boolean)`), so the empty string models a
missing component. -/
structure SmartyComponents where
  primaryNumber : String
  streetPredirection : String
  streetName : String
  streetSuffix : String
  streetPostdirection : String
  cityName : String
  state : String
  zipCode : String
  plus4Code : String
  deriving DecidableEq, Repr

/-- A Smarty street candidate, as consumed by the provider adapter.
`analysis` is `none` when the payload lacks the analysis record;
`deliveryLine2` is the empty string when absent (falsy in the source). -/
structure Candidate where
  analysis : Option DpvAnalysis
  deliveryLine1 : String
  deliveryLine2 : String
  lastLine : String
  components : SmartyComponents
  deriving DecidableEq, Repr

/-- The standardized single-line address built by `hasAddressCorrections`,
`formatAddressForComparison` and `extractCorrections`:
`deliveryLine1 + (deliveryLine2 ? ' ' + deliveryLine2 : '') + ', ' + lastLine`. -/
def standardizedFull (c : Candidate) : String :=
  c.deliveryLine1 ++ (if c.deliveryLine2 ≠ "" then " " ++ c.deliveryLine2 else "")
    ++ ", " ++ c.lastLine

/-- Embedding of `SmartyAddressProvider.hasAddressCorrections`: the
normalized original differs from the normalized standardized address. -/
def hasAddressCorrections (originalInput : String) (c : Candidate) : Bool :=
  decide (normalizeAddressForComparison originalInput ≠
    normalizeAddressForComparison (standardizedFull c))

/-- The base arm of the `switch (dpvMatchCode)` statement in
`determineValidationStatus`: `Y` maps to valid, `S` to corrected, `D` to
unverifiable, and `N`, the empty string and every other value fall through
to the default arm, invalid. -/
def dpvBaseStatus (code : String) : ValidationStatus :=
  if code = "Y" then .valid
  else if code = "S" then .corrected
  else if code = "D" then .unverifiable
  else .invalid

/-- Embedding of `SmartyAddressProvider.determineValidationStatus`
(src/unnamed/part_004 lines 425-466): a missing analysis yields invalid;
otherwise the base status of the DPV match code, promoted to corrected when
the base status is valid and `hasAddressCorrections` detects a difference. -/
def determineValidationStatus (c : Candidate) (originalInput : String) :
    ValidationStatus :=
  match c.analysis with
  | none => .invalid
  | some analysis =>
    let baseStatus := dpvBaseStatus analysis.dpvMatchCode
    if baseStatus = .valid then
      if hasAddressCorrections originalInput c then .corrected else baseStatus
    else baseStatus

/-- Embedding of `SmartyAddressProvider.buildStreetName`: the predirection,
name, suffix and postdirection components, with the falsy (empty) ones
filtered out, joined by single spaces. -/
def buildStreetName (components : SmartyComponents) : String :=
  String.intercalate " "
    (([components.streetPredirection, components.streetName,
       components.streetSuffix, components.streetPostdirection]).filter
      fun part => part ≠ "")

/-- The validated address record of src/src/types/index.ts. -/
structure ValidatedAddress where
  street : String
  number : String
  city : String
  state : String
  zipcode : String
  deriving DecidableEq, Repr

/-- Embedding of `SmartyAddressProvider.mapToValidatedAddress`. -/
def mapToValidatedAddress (c : Candidate) : ValidatedAddress :=
  { street := buildStreetName c.components
    number := c.components.primaryNumber
    city := c.components.cityName
    state := c.components.state
    zipcode := c.components.zipCode ++
      (if c.components.plus4Code ≠ "" then "-" ++ c.components.plus4Code else "") }

/-- The `AddressValidationResponse` record of src/src/types/index.ts:
`original`, `validated` and `errors` are optional fields; `errors` is
modelled as a plain list because every constructing site supplies it. -/
structure AddressValidationResponse where
  status : ValidationStatus
  original : Option String
  validated : Option ValidatedAddress
  errors : List String
  deriving DecidableEq, Repr

/-! ## Error taxonomy (src/unnamed/part_005, src/errors/index.ts) -/

/-- The typed domain errors thrown by the provider adapter.  Each carries a
message and a context bag in the source; only the kind and its HTTP status
code are relevant here.  `InvalidAddressError` is the spec's `NoCandidates`
kind when raised for an empty candidate list. -/
inductive DomainError
  | InvalidAddressError
  | CircuitBreakerError
  | TimeoutError
  | ExternalServiceError
  deriving DecidableEq, Repr

/-- The `statusCode` field of each error class in src/errors/index.ts. -/
def statusCode : DomainError → Nat
  | .InvalidAddressError => 400
  | .CircuitBreakerError => 503
  | .TimeoutError => 408
  | .ExternalServiceError => 502

/-- Shape of a raw JavaScript error observed by a `catch` block: whether it
is already one of the domain errors (`instanceof` tests), its `code`
property (empty when absent), whether it has a `timeout` property, and its
message. -/
structure JsError where
  domain : Option DomainError
  code : String
  hasTimeoutProp : Bool
  message : String
  deriving DecidableEq, Repr

/-- Does the pattern occur at the start of the text? -/
def listStartsWith : List Char → List Char → Bool
  | [], _ => true
  | _ :: _, [] => false
  | p :: ps, t :: ts => p = t && listStartsWith ps ts

/-- Does the pattern occur anywhere in the text?  Model of
`String.prototype.includes` over the character lists. -/
def listHasSub (pat : List Char) : List Char → Bool
  | [] => listStartsWith pat []
  | t :: ts => listStartsWith pat (t :: ts) || listHasSub pat ts

/-- Model of `String.prototype.includes`. -/
def strIncludes (s pat : String) : Bool := listHasSub pat.data s.data

/-- Embedding of `SmartyAddressProvider.handleAndThrowError`
(src/unnamed/part_004 lines 390-423): domain errors are re-thrown
unchanged; an `EOPENBREAKER` code becomes `CircuitBreakerError`; an error
with a `timeout` property or a message containing "timeout" becomes
`TimeoutError`; everything else becomes `ExternalServiceError`. -/
def handleAndThrowError (e : JsError) : DomainError :=
  match e.domain with
  | some d => d
  | none =>
    if e.code = "EOPENBREAKER" then .CircuitBreakerError
    else if e.hasTimeoutProp || strIncludes e.message "timeout" then .TimeoutError
    else .ExternalServiceError

/-! ## Provider adapter -/

/-- Outcome of `circuitBreaker.fire`: either the candidate list resolved by
the Smarty call, or a rejection carrying a raw JavaScript error. -/
inductive GateOutcome
  | success (candidates : List Candidate)
  | failure (e : JsError)
  deriving DecidableEq, Repr

/-- Outcome of the adapter: a returned response or a thrown domain error. -/
inductive AdapterOutcome
  | ok (r : AddressValidationResponse)
  | err (e : DomainError)
  deriving DecidableEq, Repr

/-- The `InvalidAddressError` thrown for an empty candidate list, with
reason `no_candidates_returned`; it flows through the `catch` block into
`handleAndThrowError`, which re-throws it unchanged. -/
def noCandidatesJsError : JsError :=
  { domain := some .InvalidAddressError
    code := ""
    hasTimeoutProp := false
    message := "Address could not be validated" }

/-- Embedding of `SmartyAddressProvider.validateAddress`
(src/unnamed/part_004 lines 339-376), the revision that raises the typed
error taxonomy — the revision exercised by the repository's test suite.
The outcome of `circuitBreaker.fire` is passed in explicitly: an empty
candidate list raises `InvalidAddressError`, a non-empty list is classified
from its first candidate, and a gate failure is translated by
`handleAndThrowError`. -/
def validateAddressTyped (address : String) (gate : GateOutcome) :
    AdapterOutcome :=
  match gate with
  | .success [] => .err (handleAndThrowError noCandidatesJsError)
  | .success (candidate :: _) =>
    .ok { status := determineValidationStatus candidate address
          original := some address
          validated := some (mapToValidatedAddress candidate)
          errors := [] }
  | .failure e => .err (handleAndThrowError e)

/-! ## Provider adapter, legacy revision returning `ProviderValidationResult` -/

/-- The standardized address record of the legacy provider revision
(`mapToStandardizedAddress`); `deliveryLine2` is `undefined` (here `none`)
when the candidate's second delivery line is falsy. -/
structure StandardizedAddress where
  street : String
  number : String
  city : String
  state : String
  zipcode : String
  deliveryLine1 : String
  deliveryLine2 : Option String
  lastLine : String
  deriving DecidableEq, Repr

/-- A field-level correction entry (`AddressCorrection`). -/
structure AddressCorrection where
  field : String
  original : String
  corrected : String
  deriving DecidableEq, Repr

/-- The `ProviderValidationResult` record returned by the legacy provider
revision.  The wall-clock `metadata.processingTime` is outside the model. -/
structure ProviderValidationResult where
  status : ValidationStatus
  standardizedAddress : Option StandardizedAddress
  originalInput : String
  corrections : List AddressCorrection
  errors : List String
  deriving DecidableEq, Repr

/-- Embedding of the legacy `mapToStandardizedAddress`. -/
def mapToStandardizedAddress (c : Candidate) : StandardizedAddress :=
  { street := buildStreetName c.components
    number := c.components.primaryNumber
    city := c.components.cityName
    state := c.components.state
    zipcode := c.components.zipCode ++
      (if c.components.plus4Code ≠ "" then "-" ++ c.components.plus4Code else "")
    deliveryLine1 := c.deliveryLine1
    deliveryLine2 := if c.deliveryLine2 ≠ "" then some c.deliveryLine2 else none
    lastLine := c.lastLine }

/-- Embedding of `formatAddressForComparison`: the normalized standardized
single-line address. -/
def formatAddressForComparison (c : Candidate) : String :=
  normalizeAddressForComparison (standardizedFull c)

/-- Embedding of the legacy `determineValidationStatus`
(src/unnamed/part_004 lines 677-720), which compares the normalized
standardized address with the normalized original inline. -/
def determineValidationStatusLegacy (c : Candidate) (originalInput : String) :
    ValidationStatus :=
  match c.analysis with
  | none => .invalid
  | some analysis =>
    let baseStatus := dpvBaseStatus analysis.dpvMatchCode
    if baseStatus = .valid then
      if formatAddressForComparison c ≠
          normalizeAddressForComparison originalInput then .corrected
      else baseStatus
    else baseStatus

/-- Embedding of `extractCorrections`: when the normalized original differs
from the normalized standardized address, one whole-address diff entry. -/
def extractCorrections (original : String) (c : Candidate) :
    List AddressCorrection :=
  if normalizeAddressForComparison original ≠
      normalizeAddressForComparison (standardizedFull c) then
    [{ field := "address", original := original,
       corrected := standardizedFull c }]
  else []

/-- Embedding of the legacy `handleCircuitBreakerError`: every gate failure
is converted into an invalid result whose message depends on the error. -/
def handleCircuitBreakerErrorLegacy (e : JsError) (address : String) :
    ProviderValidationResult :=
  { status := .invalid
    standardizedAddress := none
    originalInput := address
    corrections := []
    errors := [if e.code = "EOPENBREAKER" then
        "Address validation service is experiencing issues - please try again later"
      else if e.hasTimeoutProp then "Address validation request timed out"
      else "Address validation service temporarily unavailable"] }

/-- Embedding of the legacy `SmartyAddressProvider.validateAddress`
(src/unnamed/part_004 lines 582-630): an empty candidate list yields an
invalid result without a standardized address; a non-empty list yields the
classified status together with the standardized address and the extracted
corrections; a gate failure is converted by `handleCircuitBreakerErrorLegacy`. -/
def validateAddressLegacy (address : String) (gate : GateOutcome) :
    ProviderValidationResult :=
  match gate with
  | .success [] =>
    { status := .invalid
      standardizedAddress := none
      originalInput := address
      corrections := []
      errors := ["Address could not be validated"] }
  | .success (candidate :: _) =>
    { status := determineValidationStatusLegacy candidate address
      standardizedAddress := some (mapToStandardizedAddress candidate)
      originalInput := address
      corrections := extractCorrections address candidate
      errors := [] }
  | .failure e => handleCircuitBreakerErrorLegacy e address

/-! ## Validation orchestrator (AddressValidationService) -/

/-- A JavaScript value passed as the orchestrator's `address` argument:
either an actual string or some non-string value (null, undefined, a
number, an object, ...), every one of which fails the
`!address || typeof address !== 'string'` guard. -/
inductive JsInput
  | str (s : String)
  | notString
  deriving DecidableEq, Repr

/-- The `original` field echoed by the orchestrator (the raw input value,
which is only a string when the caller passed one). -/
def originalOf : JsInput → Option String
  | .str s => some s
  | .notString => none

/-- Does the input fail the orchestrator's guard
`!address || typeof address !== 'string' || address.trim().length === 0`? -/
def isBlankInput : JsInput → Bool
  | .notString => true
  | .str s => decide (s = "" ∨ trimString s = "")

/-- Embedding of `AddressValidationService.validateAddress`
(src/unnamed/part_004 lines 10-33).  The provider is passed as a function
from the trimmed address to its outcome.  A blank or non-string input is
answered locally; a provider success is returned unchanged; any error
thrown by the provider is caught and converted into an invalid response
with a generic internal-error message. -/
def serviceValidateAddress (input : JsInput) (provider : String → AdapterOutcome) :
    AddressValidationResponse :=
  match input with
  | .notString =>
    { status := .invalid
      original := none
      validated := none
      errors := ["Address is required and must be a non-empty string"] }
  | .str address =>
    if address = "" ∨ trimString address = "" then
      { status := .invalid
        original := some address
        validated := none
        errors := ["Address is required and must be a non-empty string"] }
    else
      match provider (trimString address) with
      | .ok result => result
      | .err _ =>
        { status := .invalid
          original := some address
          validated := none
          errors := ["Address validation failed due to an internal error"] }

/-! ## Resilience gate

Modelled from the spec: the circuit breaker itself is the external
`opossum` library, configured but not implemented in the repository source.
The model follows §4.4 of the spec: a three-state machine (closed, open,
half-open) with an error-rate counter, a fail-fast open state that rejects
with an `EOPENBREAKER` error without touching the network, an automatic
open → half-open transition after the reset duration, a single trial call
in half-open, and a per-call timeout whose expiry counts as a failure and
surfaces as the Timeout kind. -/

/-- Breaker circuit states; `opened` is the spec's "open" state. -/
inductive CircuitState
  | closed
  | opened
  | halfOpen
  deriving DecidableEq, Repr

/-- The breaker options passed by the provider constructor
(src/unnamed/part_004 lines 319-323). -/
structure BreakerConfig where
  timeout : Nat
  errorThresholdPercentage : Nat
  resetTimeout : Nat
  deriving DecidableEq, Repr

/-- The circuit-breaker configuration defaults of src/src/config/index.ts:
per-call timeout 10000 ms, error threshold 50 %, reset timeout 30000 ms. -/
def defaultCircuitBreakerConfig : BreakerConfig :=
  { timeout := 10000, errorThresholdPercentage := 50, resetTimeout := 30000 }

/-- Modelled from the spec: the breaker's mutable state — the circuit
value, the rolling success and failure counters, and the instant (in ms)
at which the circuit last entered the open state. -/
structure BreakerState where
  circuit : CircuitState
  failures : Nat
  successes : Nat
  openedAt : Nat
  deriving DecidableEq, Repr

/-- Behaviour of the underlying Smarty call during one fired invocation:
it resolves with candidates, rejects with an error, or exceeds the
per-call timeout. -/
inductive CallOutcome
  | success (candidates : List Candidate)
  | failure (e : JsError)
  | timedOut
  deriving DecidableEq, Repr

/-- Modelled from the spec: the circuit observed at instant `now` — an open
circuit becomes half-open once the reset duration has elapsed. -/
def currentCircuit (cfg : BreakerConfig) (st : BreakerState) (now : Nat) :
    CircuitState :=
  match st.circuit with
  | .opened => if st.openedAt + cfg.resetTimeout ≤ now then .halfOpen else .opened
  | s => s

/-- The rejection produced by the open breaker; `opossum` rejects with an
error whose `code` property is `EOPENBREAKER`, the code tested by
`handleAndThrowError` (and by the repository's tests). -/
def openBreakerJsError : JsError :=
  { domain := none, code := "EOPENBREAKER", hasTimeoutProp := false
    message := "Breaker is open" }

/-- Modelled from the spec: the rejection produced when a call exceeds the
per-call timeout; the repository's tests model it as an error carrying a
`timeout` property, which `handleAndThrowError` maps to the Timeout kind. -/
def timedOutJsError (cfg : BreakerConfig) : JsError :=
  { domain := none, code := "ETIMEDOUT", hasTimeoutProp := true
    message := "Timed out after " ++ toString cfg.timeout ++ "ms" }

/-- Result of firing one call through the breaker: the outcome handed to
the adapter, whether the network call was attempted at all, and the
breaker state afterwards. -/
structure FireResult where
  outcome : GateOutcome
  networkAttempted : Bool
  state : BreakerState
  deriving DecidableEq, Repr

/-- Has the rolling error rate met the configured threshold
(failures / total ≥ threshold %)? -/
def errorRateReached (cfg : BreakerConfig) (st : BreakerState) : Prop :=
  cfg.errorThresholdPercentage * (st.failures + st.successes) ≤ st.failures * 100

instance (cfg : BreakerConfig) (st : BreakerState) :
    Decidable (errorRateReached cfg st) := by
  unfold errorRateReached; infer_instance

/-- Modelled from the spec: after a failure is recorded in the closed
state, the circuit trips open when the error rate meets the threshold. -/
def applyThreshold (cfg : BreakerConfig) (st : BreakerState) (now : Nat) :
    BreakerState :=
  if errorRateReached cfg st then { st with circuit := .opened, openedAt := now }
  else st

/-- Modelled from the spec: firing one call through the breaker at instant
`now`.  An open circuit rejects immediately with `openBreakerJsError` and
never attempts the network call; a half-open circuit lets one trial call
through, closing on success and re-opening on failure; a closed circuit
passes the call through and feeds its outcome to the rolling counters, a
timeout counting as a failure. -/
def breakerFire (cfg : BreakerConfig) (st : BreakerState) (now : Nat)
    (call : CallOutcome) : FireResult :=
  match currentCircuit cfg st now with
  | .opened =>
    { outcome := .failure openBreakerJsError, networkAttempted := false
      state := st }
  | .halfOpen =>
    match call with
    | .success cands =>
      { outcome := .success cands, networkAttempted := true
        state := { st with circuit := .closed, failures := 0, successes := 0 } }
    | .failure e =>
      { outcome := .failure e, networkAttempted := true
        state := { st with circuit := .opened, openedAt := now } }
    | .timedOut =>
      { outcome := .failure (timedOutJsError cfg), networkAttempted := true
        state := { st with circuit := .opened, openedAt := now } }
  | .closed =>
    match call with
    | .success cands =>
      { outcome := .success cands, networkAttempted := true
        state := { st with successes := st.successes + 1 } }
    | .failure e =>
      { outcome := .failure e, networkAttempted := true
        state := applyThreshold cfg { st with failures := st.failures + 1 } now }
    | .timedOut =>
      { outcome := .failure (timedOutJsError cfg), networkAttempted := true
        state := applyThreshold cfg { st with failures := st.failures + 1 } now }

/-- One full adapter call as wired in the source: fire the breaker, then
interpret the gate outcome with `validateAddressTyped`.  Returns the
adapter outcome, whether a network call was attempted, and the breaker
state afterwards. -/
def adapterCall (cfg : BreakerConfig) (st : BreakerState) (now : Nat)
    (address : String) (call : CallOutcome) :
    AdapterOutcome × Bool × BreakerState :=
  let fired := breakerFire cfg st now call
  (validateAddressTyped address fired.outcome, fired.networkAttempted, fired.state)

/-! ## Sample data used by the witnesses -/

/-- A concrete components record (the standard Smarty example address). -/
def sampleComponents : SmartyComponents :=
  { primaryNumber := "1600"
    streetPredirection := ""
    streetName := "Amphitheatre"
    streetSuffix := "Pkwy"
    streetPostdirection := ""
    cityName := "Mountain View"
    state := "CA"
    zipCode := "94043"
    plus4Code := "1351" }

/-- A concrete candidate whose DPV match code is `D`. -/
def candidateD : Candidate :=
  { analysis := some { dpvMatchCode := "D" }
    deliveryLine1 := "123 Main St"
    deliveryLine2 := ""
    lastLine := "Mountain View CA 94043"
    components := sampleComponents }

/-- A concrete candidate whose DPV match code is `Y`. -/
def candidateY : Candidate :=
  { analysis := some { dpvMatchCode := "Y" }
    deliveryLine1 := "1600 Amphitheatre Pkwy"
    deliveryLine2 := ""
    lastLine := "Mountain View CA 94043-1351"
    components := sampleComponents }

/-- A concrete candidate whose DPV match code is `N`. -/
def candidateN : Candidate :=
  { analysis := some { dpvMatchCode := "N" }
    deliveryLine1 := "1 Nowhere Rd"
    deliveryLine2 := ""
    lastLine := "Nowhere ZZ 00000"
    components := sampleComponents }

/-- The response produced by the typed adapter for `candidateD`. -/
def respD : AddressValidationResponse :=
  { status := .unverifiable
    original := some "123 Main St"
    validated := some (mapToValidatedAddress candidateD)
    errors := [] }

/-- A breaker state whose circuit is open, well before the reset timeout. -/
def openState : BreakerState :=
  { circuit := .opened, failures := 3, successes := 0, openedAt := 0 }

/-- A breaker state whose circuit is closed. -/
def closedState : BreakerState :=
  { circuit := .closed, failures := 0, successes := 4, openedAt := 0 }

/-- A provider behaviour that always throws an external-service error. -/
def provErr : String → AdapterOutcome := fun _ => .err .ExternalServiceError

/-- A provider behaviour that always returns the `candidateD` response. -/
def provOk : String → AdapterOutcome := fun _ => .ok respD

/-! ## Theorems: the status classifier (claims C1 and C2) -/

/-- C1: for every candidate carrying an analysis record and every input,
`determineValidationStatus` follows the base mapping of the DPV match code
exactly — `S` yields corrected, `D` yields unverifiable, any code other
than `Y`/`S`/`D` (in particular `N` and the empty string) yields invalid,
independent of the address content — and a `Y` code yields valid or
corrected (the promotion rule being the only exception). -/
theorem classifier_base_mapping (c : Candidate) (a : DpvAnalysis)
    (input : String) (h : c.analysis = some a) :
    (a.dpvMatchCode = "S" → determineValidationStatus c input = .corrected) ∧
    (a.dpvMatchCode = "D" → determineValidationStatus c input = .unverifiable) ∧
    (a.dpvMatchCode ≠ "Y" → a.dpvMatchCode ≠ "S" → a.dpvMatchCode ≠ "D" →
      determineValidationStatus c input = .invalid) ∧
    (a.dpvMatchCode = "Y" →
      determineValidationStatus c input = .valid ∨
      determineValidationStatus c input = .corrected) := by
  refine ⟨fun h1 => ?_, fun h1 => ?_, fun h1 h2 h3 => ?_, fun h1 => ?_⟩
  · have hb : dpvBaseStatus a.dpvMatchCode = .corrected := by rw [h1]; decide
    simp [determineValidationStatus, h, hb]
  · have hb : dpvBaseStatus a.dpvMatchCode = .unverifiable := by rw [h1]; decide
    simp [determineValidationStatus, h, hb]
  · have hb : dpvBaseStatus a.dpvMatchCode = .invalid := by
      unfold dpvBaseStatus
      rw [if_neg h1, if_neg h2, if_neg h3]
    simp [determineValidationStatus, h, hb]
  · have hb : dpvBaseStatus a.dpvMatchCode = .valid := by rw [h1]; decide
    by_cases hC : hasAddressCorrections input c = true
    · exact .inr (by simp [determineValidationStatus, h, hb, hC])
    · exact .inl (by simp [determineValidationStatus, h, hb, hC])

/-- Witness for C1 at concrete candidates with codes `D` and `N`. -/
theorem classifier_base_mapping_witness :
    determineValidationStatus candidateD "123 Main St" = .unverifiable ∧
    determineValidationStatus candidateN "1 Nowhere Rd" = .invalid :=
  ⟨(classifier_base_mapping candidateD { dpvMatchCode := "D" } "123 Main St"
      rfl).2.1 rfl,
   (classifier_base_mapping candidateN { dpvMatchCode := "N" } "1 Nowhere Rd"
      rfl).2.2.1 (by decide) (by decide) (by decide)⟩

/-- C2: for a candidate with match code `Y`, the result is corrected when
the normalized original differs from the normalized standardized address
and valid when they agree; a candidate with code `D` yields unverifiable
regardless of any textual difference. -/
theorem classifier_y_promotion (c : Candidate) (a : DpvAnalysis)
    (input : String) (h : c.analysis = some a) :
    (a.dpvMatchCode = "Y" →
      (normalizeAddressForComparison input ≠
          normalizeAddressForComparison (standardizedFull c) →
        determineValidationStatus c input = .corrected) ∧
      (normalizeAddressForComparison input =
          normalizeAddressForComparison (standardizedFull c) →
        determineValidationStatus c input = .valid)) ∧
    (a.dpvMatchCode = "D" → determineValidationStatus c input = .unverifiable) := by
  refine ⟨fun h1 => ⟨fun hne => ?_, fun heq => ?_⟩, fun h1 => ?_⟩
  · have hb : dpvBaseStatus a.dpvMatchCode = .valid := by rw [h1]; decide
    have hC : hasAddressCorrections input c = true := by
      unfold hasAddressCorrections; exact decide_eq_true hne
    simp [determineValidationStatus, h, hb, hC]
  · have hb : dpvBaseStatus a.dpvMatchCode = .valid := by rw [h1]; decide
    have hC : hasAddressCorrections input c = false := by
      unfold hasAddressCorrections
      exact decide_eq_false fun hne => hne heq
    simp [determineValidationStatus, h, hb, hC]
  · have hb : dpvBaseStatus a.dpvMatchCode = .unverifiable := by rw [h1]; decide
    simp [determineValidationStatus, h, hb]

/-- Witness for C2: `candidateY` yields valid on an input that normalizes
to its standardized form, and corrected on a different input. -/
theorem classifier_y_promotion_witness :
    determineValidationStatus candidateY
      "1600 Amphitheatre Pkwy, Mountain View, CA 94043-1351" = .valid ∧
    determineValidationStatus candidateY "1601 Other Rd" = .corrected :=
  ⟨((classifier_y_promotion candidateY { dpvMatchCode := "Y" }
      "1600 Amphitheatre Pkwy, Mountain View, CA 94043-1351" rfl).1 rfl).2
      (by decide),
   ((classifier_y_promotion candidateY { dpvMatchCode := "Y" }
      "1601 Other Rd" rfl).1 rfl).1 (by decide)⟩

/-! ## Theorems: adapter error behaviour (claims C3 and C4) -/

/-- C3: when the gate succeeds with zero candidates, the typed adapter
fails with `InvalidAddressError` — the spec's `NoCandidates` kind, a
400-class error — and in particular returns no response record at all
(the outcome is an `err`, not an `ok` carrying `status := invalid`). -/
theorem adapter_no_candidates (address : String) :
    validateAddressTyped address (.success []) = .err .InvalidAddressError ∧
    statusCode .InvalidAddressError = 400 :=
  ⟨rfl, rfl⟩

/-- C4 (code bug): the orchestrator does not propagate the typed errors of
the provider adapter; it catches them and converts them into a successful
response with `status := invalid` and a generic internal-error message,
contradicting the propagation policy and the repository's own service test
that expects provider errors to bubble up.  Evaluated here at the failing
input `"123 Main St"` for a `CircuitBreakerError` and for a `TimeoutError`
provider failure. -/
theorem orchestrator_swallows_gate_errors :
    serviceValidateAddress (.str "123 Main St")
        (fun _ => .err .CircuitBreakerError) =
      { status := .invalid
        original := some "123 Main St"
        validated := none
        errors := ["Address validation failed due to an internal error"] } ∧
    serviceValidateAddress (.str "123 Main St")
        (fun _ => .err .TimeoutError) =
      { status := .invalid
        original := some "123 Main St"
        validated := none
        errors := ["Address validation failed due to an internal error"] } := by
  constructor <;> decide

/-! ## Theorems: result invariants and resilience (claims C7, C8, C9, C10) -/

/-- C7: every response produced by the typed adapter with a status other
than invalid carries a validated (standardized) address, and every result
of the legacy adapter revision with a status other than invalid carries a
standardized address — for every input and every gate outcome. -/
theorem adapter_results_carry_standardized :
    (∀ (address : String) (g : GateOutcome) (r : AddressValidationResponse),
      validateAddressTyped address g = .ok r → r.status ≠ .invalid →
        r.validated.isSome = true) ∧
    (∀ (address : String) (g : GateOutcome),
      (validateAddressLegacy address g).status ≠ .invalid →
        (validateAddressLegacy address g).standardizedAddress.isSome = true) := by
  constructor
  · intro address g r hok _
    match g with
    | .success [] => simp [validateAddressTyped] at hok
    | .success (candidate :: rest) =>
      simp only [validateAddressTyped, AdapterOutcome.ok.injEq] at hok
      rw [← hok]
      rfl
    | .failure e => simp [validateAddressTyped] at hok
  · intro address g hst
    match g with
    | .success [] => simp [validateAddressLegacy] at hst
    | .success (candidate :: rest) => rfl
    | .failure e => simp [validateAddressLegacy, handleCircuitBreakerErrorLegacy] at hst

/-- Witness for C7 at `candidateD` (status unverifiable) for both adapter
revisions. -/
theorem adapter_results_carry_standardized_witness :
    respD.validated.isSome = true ∧
    (validateAddressLegacy "123 Main St"
        (.success [candidateD])).standardizedAddress.isSome = true :=
  ⟨adapter_results_carry_standardized.1 "123 Main St" (.success [candidateD])
      respD (by decide) (by decide),
   adapter_results_carry_standardized.2 "123 Main St" (.success [candidateD])
      (by decide)⟩

/-- C8: whenever the circuit observed at the call instant is open, the
composed adapter call fails with the `CircuitBreakerError` kind (the spec's
`CircuitOpen`), attempts no network call, and leaves the breaker state
unchanged — for every configuration, state, instant, address and
underlying call behaviour. -/
theorem breaker_open_fails_fast (cfg : BreakerConfig) (st : BreakerState)
    (now : Nat) (address : String) (call : CallOutcome)
    (h : currentCircuit cfg st now = .opened) :
    (adapterCall cfg st now address call).1 = .err .CircuitBreakerError ∧
    (adapterCall cfg st now address call).2.1 = false ∧
    (adapterCall cfg st now address call).2.2 = st := by
  unfold adapterCall breakerFire
  rw [h]
  exact ⟨rfl, rfl, rfl⟩

/-- Witness for C8: an open breaker state well inside the reset window. -/
theorem breaker_open_fails_fast_witness :
    (adapterCall defaultCircuitBreakerConfig openState 5 "123 Main St"
      (.success [candidateY])).1 = .err .CircuitBreakerError ∧
    (adapterCall defaultCircuitBreakerConfig openState 5 "123 Main St"
      (.success [candidateY])).2.1 = false :=
  ⟨(breaker_open_fails_fast defaultCircuitBreakerConfig openState 5
      "123 Main St" (.success [candidateY]) (by decide)).1,
   (breaker_open_fails_fast defaultCircuitBreakerConfig openState 5
      "123 Main St" (.success [candidateY]) (by decide)).2.1⟩

/-- C9: a call that exceeds the per-call timeout (default 10000 ms in the
configuration) while the circuit is closed is surfaced by the adapter as
the `TimeoutError` kind, and the breaker records it as one more failure in
its rolling counter. -/
theorem breaker_timeout_failure (cfg : BreakerConfig) (st : BreakerState)
    (now : Nat) (address : String)
    (h : currentCircuit cfg st now = .closed) :
    (adapterCall cfg st now address .timedOut).1 = .err .TimeoutError ∧
    (adapterCall cfg st now address .timedOut).2.1 = true ∧
    (adapterCall cfg st now address .timedOut).2.2.failures = st.failures + 1 ∧
    defaultCircuitBreakerConfig.timeout = 10000 := by
  have hfire : breakerFire cfg st now .timedOut =
      { outcome := .failure (timedOutJsError cfg)
        networkAttempted := true
        state := applyThreshold cfg { st with failures := st.failures + 1 } now } := by
    unfold breakerFire
    rw [h]
  unfold adapterCall
  rw [hfire]
  refine ⟨rfl, rfl, ?_, rfl⟩
  show (applyThreshold cfg { st with failures := st.failures + 1 } now).failures =
    st.failures + 1
  unfold applyThreshold
  split <;> rfl

/-- Witness for C9 at a concrete closed breaker state. -/
theorem breaker_timeout_failure_witness :
    (adapterCall defaultCircuitBreakerConfig closedState 0 "123 Main St"
      .timedOut).1 = .err .TimeoutError ∧
    (adapterCall defaultCircuitBreakerConfig closedState 0 "123 Main St"
      .timedOut).2.2.failures = closedState.failures + 1 :=
  ⟨(breaker_timeout_failure defaultCircuitBreakerConfig closedState 0
      "123 Main St" (by decide)).1,
   (breaker_timeout_failure defaultCircuitBreakerConfig closedState 0
      "123 Main St" (by decide)).2.2.1⟩

/-- C10: the orchestrator always returns a response (its Lean type is
total, reflecting the catch-all in the source): a blank or non-string
input yields the invalid input-required response without consulting the
provider (the result is the same for every provider), a provider error
yields the invalid generic internal-error response, and a provider success
is returned unchanged. -/
theorem orchestrator_total (input : JsInput) (p : String → AdapterOutcome) :
    (isBlankInput input = true →
      (serviceValidateAddress input p).status = .invalid ∧
      (serviceValidateAddress input p).errors =
        ["Address is required and must be a non-empty string"] ∧
      ∀ q : String → AdapterOutcome,
        serviceValidateAddress input p = serviceValidateAddress input q) ∧
    (∀ (s : String) (e : DomainError), input = .str s →
      isBlankInput input = false → p (trimString s) = .err e →
      serviceValidateAddress input p =
        { status := .invalid
          original := some s
          validated := none
          errors := ["Address validation failed due to an internal error"] }) ∧
    (∀ (s : String) (r : AddressValidationResponse), input = .str s →
      isBlankInput input = false → p (trimString s) = .ok r →
      serviceValidateAddress input p = r) := by
  cases input with
  | notString =>
    refine ⟨fun _ => ?_, ?_, ?_⟩
    · refine ⟨?_, ?_, ?_⟩
      · rfl
      · rfl
      · intro q; rfl
    · intro s e h1 _ _; exact absurd h1 (by simp)
    · intro s r h1 _ _; exact absurd h1 (by simp)
  | str s0 =>
    have hcond : isBlankInput (.str s0) = decide (s0 = "" ∨ trimString s0 = "") := rfl
    refine ⟨fun hb => ?_, ?_, ?_⟩
    · have hp : s0 = "" ∨ trimString s0 = "" := of_decide_eq_true (hcond ▸ hb)
      simp only [serviceValidateAddress, if_pos hp]
      refine ⟨?_, ?_, ?_⟩
      · trivial
      · trivial
      · intro q; trivial
    · intro s e h1 hb hp
      cases h1
      have hnp : ¬(s0 = "" ∨ trimString s0 = "") := of_decide_eq_false (hcond ▸ hb)
      simp only [serviceValidateAddress, if_neg hnp, hp]
    · intro s r h1 hb hp
      cases h1
      have hnp : ¬(s0 = "" ∨ trimString s0 = "") := of_decide_eq_false (hcond ▸ hb)
      simp only [serviceValidateAddress, if_neg hnp, hp]

/-- Witness for C10: a whitespace-only input answered locally, a provider
error converted to the generic invalid response, and a provider success
passed through. -/
theorem orchestrator_total_witness :
    serviceValidateAddress (.str "   ") provErr =
      serviceValidateAddress (.str "   ") provOk ∧
    serviceValidateAddress (.str " 123 Main St ") provErr =
      { status := .invalid
        original := some " 123 Main St "
        validated := none
        errors := ["Address validation failed due to an internal error"] } ∧
    serviceValidateAddress (.str "123 Main St") provOk = respD :=
  ⟨((orchestrator_total (.str "   ") provErr).1 (by decide)).2.2 provOk,
   (orchestrator_total (.str " 123 Main St ") provErr).2.1 " 123 Main St "
      .ExternalServiceError rfl (by decide) rfl,
   (orchestrator_total (.str "123 Main St") provOk).2.2 "123 Main St" respD
      rfl (by decide) rfl⟩

/-! ## Theorems: the normalizer (claims C5 and C6) -/

/-- Reading the scalar value back out of `Char.ofNat` below the surrogate
range. -/
theorem charOfNat_toNat {n : Nat} (h : n < 55296) : (Char.ofNat n).toNat = n := by
  unfold Char.ofNat
  rw [dif_pos (Or.inl h)]
  rfl

/-- Every character produced by the lower-casing step is itself fixed by
lower-casing (the mapping's image contains no upper-case ASCII letter, no
Kelvin sign and no dotted capital I). -/
theorem lowerCharJS_stable {x d : Char} (hd : d ∈ lowerCharJS x) :
    lowerCharJS d = [d] := by
  unfold lowerCharJS at hd
  by_cases h1 : 65 ≤ x.toNat ∧ x.toNat ≤ 90
  · rw [if_pos h1] at hd
    rw [List.mem_singleton] at hd
    subst hd
    have ht : (Char.ofNat (x.toNat + 32)).toNat = x.toNat + 32 :=
      charOfNat_toNat (by omega)
    unfold lowerCharJS
    rw [if_neg (by rw [ht]; omega), if_neg (by rw [ht]; omega),
      if_neg (by rw [ht]; omega)]
  · rw [if_neg h1] at hd
    by_cases h2 : x.toNat = 8490
    · rw [if_pos h2] at hd
      rw [List.mem_singleton] at hd
      subst hd
      decide
    · rw [if_neg h2] at hd
      by_cases h3 : x.toNat = 304
      · rw [if_pos h3] at hd
        rcases List.mem_cons.mp hd with rfl | hd2
        · decide
        · rw [List.mem_singleton] at hd2
          subst hd2
          decide
      · rw [if_neg h3] at hd
        rw [List.mem_singleton] at hd
        subst hd
        unfold lowerCharJS
        rw [if_neg h1, if_neg h2, if_neg h3]

/-- Word characters are never whitespace characters. -/
theorem word_not_space {c : Char} (hw : IsWordCharJS c) : ¬ IsSpaceJS c := by
  unfold IsWordCharJS at hw
  unfold IsSpaceJS
  omega

/-- The replacement space is a whitespace character. -/
theorem isSpaceJS_spaceChar : IsSpaceJS spaceChar := by decide

/-- Every member of a collapsed list is the inserted space or a non-space
member of the original list. -/
theorem mem_collapseWS :
    ∀ (l : List Char) (b : Bool) {c : Char}, c ∈ collapseWS b l →
      c = spaceChar ∨ (c ∈ l ∧ ¬ IsSpaceJS c) := by
  intro l
  induction l with
  | nil => intro b c h; cases b <;> simp [collapseWS] at h
  | cons a as ih =>
    intro b c h
    by_cases ha : IsSpaceJS a
    · have h' : c ∈ collapseWS true as ∨ c = spaceChar := by
        cases b with
        | false =>
          rw [show collapseWS false (a :: as) =
              spaceChar :: collapseWS true as by simp [collapseWS, if_pos ha]] at h
          rcases List.mem_cons.mp h with h1 | h1
          · exact .inr h1
          · exact .inl h1
        | true =>
          rw [show collapseWS true (a :: as) = collapseWS true as by
              simp [collapseWS, if_pos ha]] at h
          exact .inl h
      rcases h' with h1 | h1
      · rcases ih true h1 with h2 | ⟨h2, h3⟩
        · exact .inl h2
        · exact .inr ⟨List.mem_cons_of_mem a h2, h3⟩
      · exact .inl h1
    · have h' : c ∈ a :: collapseWS false as := by
        cases b with
        | false =>
          rw [show collapseWS false (a :: as) = a :: collapseWS false as by
              simp [collapseWS, if_neg ha]] at h
          exact h
        | true =>
          rw [show collapseWS true (a :: as) = a :: collapseWS false as by
              simp [collapseWS, if_neg ha]] at h
          exact h
      rcases List.mem_cons.mp h' with rfl | h1
      · exact .inr ⟨List.mem_cons_self _ _, ha⟩
      · rcases ih false h1 with h2 | ⟨h2, h3⟩
        · exact .inl h2
        · exact .inr ⟨List.mem_cons_of_mem a h2, h3⟩

/-- After a whitespace run has just been consumed, the collapsed list never
starts with a whitespace character. -/
theorem head_collapseWS_true :
    ∀ (l : List Char) {d : Char}, (collapseWS true l).head? = some d →
      ¬ IsSpaceJS d := by
  intro l
  induction l with
  | nil => intro d h; simp [collapseWS] at h
  | cons a as ih =>
    intro d h
    by_cases ha : IsSpaceJS a
    · rw [show collapseWS true (a :: as) = collapseWS true as by
        simp [collapseWS, if_pos ha]] at h
      exact ih h
    · rw [show collapseWS true (a :: as) = a :: collapseWS false as by
        simp [collapseWS, if_neg ha]] at h
      simp only [List.head?_cons, Option.some.injEq] at h
      rw [← h]
      exact ha

/-- The collapsed list never contains two adjacent whitespace characters. -/
theorem noSpaceRun_collapseWS :
    ∀ (l : List Char) (b : Bool), NoSpaceRun (collapseWS b l) := by
  intro l
  induction l with
  | nil => intro b; cases b <;> exact List.chain'_nil
  | cons a as ih =>
    intro b
    by_cases ha : IsSpaceJS a
    · cases b with
      | true =>
        rw [show collapseWS true (a :: as) = collapseWS true as by
          simp [collapseWS, if_pos ha]]
        exact ih true
      | false =>
        rw [show collapseWS false (a :: as) = spaceChar :: collapseWS true as by
          simp [collapseWS, if_pos ha]]
        refine List.chain'_cons'.mpr ⟨?_, ih true⟩
        intro y hy
        exact fun hp => head_collapseWS_true as (Option.mem_def.mp hy) hp.2
    · have hgoal : NoSpaceRun (a :: collapseWS false as) := by
        refine List.chain'_cons'.mpr ⟨?_, ih false⟩
        intro y _
        exact fun hp => ha hp.1
      cases b with
      | true =>
        rw [show collapseWS true (a :: as) = a :: collapseWS false as by
          simp [collapseWS, if_neg ha]]
        exact hgoal
      | false =>
        rw [show collapseWS false (a :: as) = a :: collapseWS false as by
          simp [collapseWS, if_neg ha]]
        exact hgoal

/-- When the list does not start with whitespace, the run flag is
irrelevant. -/
theorem collapseWS_noflag :
    ∀ (l : List Char), (∀ d, l.head? = some d → ¬ IsSpaceJS d) →
      collapseWS true l = collapseWS false l := by
  intro l h
  cases l with
  | nil => rfl
  | cons a as =>
    have ha := h a rfl
    simp [collapseWS, if_neg ha]

/-- Collapsing fixes a list whose whitespace is the plain space with no two
adjacent occurrences. -/
theorem collapseWS_fix :
    ∀ (l : List Char), (∀ c ∈ l, IsSpaceJS c → c = spaceChar) →
      NoSpaceRun l → collapseWS false l = l := by
  intro l
  induction l with
  | nil => intro _ _; rfl
  | cons a as ih =>
    intro hsp hrun
    have htail : NoSpaceRun as := (List.chain'_cons'.mp hrun).2
    by_cases ha : IsSpaceJS a
    · have ha2 : a = spaceChar := hsp a (List.mem_cons_self a as) ha
      have hhead : ∀ d, as.head? = some d → ¬ IsSpaceJS d := by
        intro d hd hds
        exact (List.chain'_cons'.mp hrun).1 d (Option.mem_def.mpr hd) ⟨ha, hds⟩
      rw [show collapseWS false (a :: as) = spaceChar :: collapseWS true as by
          simp [collapseWS, if_pos ha],
        collapseWS_noflag as hhead,
        ih (fun c hc => hsp c (List.mem_cons_of_mem a hc)) htail, ha2]
    · rw [show collapseWS false (a :: as) = a :: collapseWS false as by
          simp [collapseWS, if_neg ha],
        ih (fun c hc => hsp c (List.mem_cons_of_mem a hc)) htail]

/-- The head surviving `dropWhile isSpaceB` is not whitespace. -/
theorem head_dropWhile_isSpaceB :
    ∀ (l : List Char) {d : Char}, (l.dropWhile isSpaceB).head? = some d →
      isSpaceB d = false := by
  intro l
  induction l with
  | nil => intro d h; simp at h
  | cons a as ih =>
    intro d h
    by_cases ha : isSpaceB a = true
    · rw [List.dropWhile_cons_of_pos ha] at h
      exact ih h
    · rw [List.dropWhile_cons_of_neg ha] at h
      simp only [List.head?_cons, Option.some.injEq] at h
      rw [← h]
      exact Bool.not_eq_true _ ▸ ha

/-- The trimmed list is an initial segment of the front-trimmed list. -/
theorem trimJS_front (l : List Char) : trimJS l <+: l.dropWhile isSpaceB := by
  unfold trimJS
  have h3 : (l.dropWhile isSpaceB).reverse.dropWhile isSpaceB <:+
      (l.dropWhile isSpaceB).reverse := List.dropWhile_suffix isSpaceB
  have h4 := List.reverse_prefix.mpr h3
  rw [List.reverse_reverse] at h4
  exact h4

/-- The trimmed list is a contiguous part of the original list. -/
theorem trimJS_contained (l : List Char) : trimJS l <:+: l :=
  List.IsInfix.trans (List.IsPrefix.isInfix (trimJS_front l))
    (List.IsSuffix.isInfix (List.dropWhile_suffix isSpaceB))

/-- The head of a prefix is the head of the longer list. -/
theorem isPre_head? {l1 l2 : List Char} {d : Char} (h : l1 <+: l2)
    (hd : l1.head? = some d) : l2.head? = some d := by
  obtain ⟨t, rfl⟩ := h
  cases l1 with
  | nil => simp at hd
  | cons x xs => simpa using hd

/-- The trimmed list does not start with whitespace. -/
theorem head_trimJS_not (l : List Char) {d : Char}
    (hd : (trimJS l).head? = some d) : ¬ IsSpaceJS d := by
  have hd2 := isPre_head? (trimJS_front l) hd
  have hB := head_dropWhile_isSpaceB l hd2
  simpa [isSpaceB] using hB

/-- The trimmed list does not end with whitespace. -/
theorem last_trimJS_not (l : List Char) {d : Char}
    (hd : (trimJS l).getLast? = some d) : ¬ IsSpaceJS d := by
  unfold trimJS at hd
  rw [List.getLast?_reverse] at hd
  have hB := head_dropWhile_isSpaceB (l.dropWhile isSpaceB).reverse hd
  simpa [isSpaceB] using hB

/-- Trimming fixes a list that neither starts nor ends with whitespace. -/
theorem trimJS_fix (l : List Char)
    (h1 : ∀ d, l.head? = some d → ¬ IsSpaceJS d)
    (h2 : ∀ d, l.getLast? = some d → ¬ IsSpaceJS d) : trimJS l = l := by
  have hdrop : l.dropWhile isSpaceB = l := by
    cases l with
    | nil => rfl
    | cons a as =>
      rw [List.dropWhile_cons_of_neg (by simpa [isSpaceB] using h1 a rfl)]
  unfold trimJS
  rw [hdrop]
  have hrev : l.reverse.dropWhile isSpaceB = l.reverse := by
    cases hr : l.reverse with
    | nil => rfl
    | cons a as =>
      have ha : l.getLast? = some a := by rw [← List.head?_reverse, hr]; rfl
      rw [List.dropWhile_cons_of_neg (by simpa [isSpaceB] using h2 a ha)]
  rw [hrev, List.reverse_reverse]

/-- Mapping a function that fixes every member fixes the list. -/
theorem map_fix :
    ∀ (l : List Char) (f : Char → Char), (∀ c ∈ l, f c = c) → l.map f = l := by
  intro l f h
  induction l with
  | nil => rfl
  | cons a as ih =>
    simp only [List.map_cons]
    rw [h a (List.mem_cons_self a as),
      ih fun c hc => h c (List.mem_cons_of_mem a hc)]

/-- Flat-mapping a function that maps every member to its singleton fixes
the list. -/
theorem flatMap_fix :
    ∀ (l : List Char) (f : Char → List Char), (∀ c ∈ l, f c = [c]) →
      l.flatMap f = l := by
  intro l f h
  induction l with
  | nil => rfl
  | cons a as ih =>
    rw [List.flatMap_cons, h a (List.mem_cons_self a as),
      ih fun c hc => h c (List.mem_cons_of_mem a hc), List.singleton_append]

/-- Every character of a normalized string is a lower-case-stable word
character or the plain space. -/
theorem normalize_char_inv (s : String) :
    ∀ c ∈ (normalizeAddressForComparison s).data,
      (IsWordCharJS c ∧ lowerCharJS c = [c]) ∨ c = spaceChar := by
  intro c hc
  have hc2 := List.IsInfix.subset (trimJS_contained _) hc
  rcases mem_collapseWS _ false hc2 with h1 | ⟨h2, h3⟩
  · exact .inr h1
  · rw [List.mem_map] at h2
    obtain ⟨d, hd, rfl⟩ := h2
    rw [List.mem_flatMap] at hd
    obtain ⟨x, _, hdx⟩ := hd
    left
    unfold replaceCharJS at h3 ⊢
    by_cases hw : IsWordCharJS d ∨ IsSpaceJS d
    · rw [if_pos hw] at h3 ⊢
      rcases hw with hw2 | hs
      · exact ⟨hw2, lowerCharJS_stable hdx⟩
      · exact absurd hs h3
    · rw [if_neg hw] at h3
      exact absurd isSpaceJS_spaceChar h3

/-- A normalized string has no two adjacent whitespace characters. -/
theorem normalize_noRun (s : String) :
    NoSpaceRun (normalizeAddressForComparison s).data :=
  List.Chain'.infix (noSpaceRun_collapseWS _ false) (trimJS_contained _)

/-- A normalized string does not start with whitespace. -/
theorem normalize_head_not (s : String) :
    ∀ d, (normalizeAddressForComparison s).data.head? = some d →
      ¬ IsSpaceJS d :=
  fun _ hd => head_trimJS_not _ hd

/-- A normalized string does not end with whitespace. -/
theorem normalize_last_not (s : String) :
    ∀ d, (normalizeAddressForComparison s).data.getLast? = some d →
      ¬ IsSpaceJS d :=
  fun _ hd => last_trimJS_not _ hd

/-- C5 (amended): the normalizer lower-cases the string (the Unicode
lowercase mappings can produce word characters — the Kelvin sign becomes
`k`, the dotted capital I becomes `i` plus a combining dot), replaces
every character of the lower-cased string that is not a word character
(letter, digit, or underscore) and not whitespace with a single space,
collapses whitespace runs, and trims — the underscore, being a `\w` word
character, is preserved rather than replaced.  Stated extensionally:
every character of a normalized string is a lower-case-stable word
character or the single space, no two whitespace characters are adjacent,
the string neither starts nor ends with whitespace, a lone character
outside both classes other than U+212A and U+0130 normalizes to the empty
string while those two normalize to `k` and `i`, and the underscore
normalizes to itself. -/
theorem normalizer_amended :
    (∀ s : String,
      (∀ c ∈ (normalizeAddressForComparison s).data,
        (IsWordCharJS c ∧ lowerCharJS c = [c]) ∨ c = spaceChar) ∧
      NoSpaceRun (normalizeAddressForComparison s).data ∧
      (∀ d, (normalizeAddressForComparison s).data.head? = some d →
        ¬ IsSpaceJS d) ∧
      (∀ d, (normalizeAddressForComparison s).data.getLast? = some d →
        ¬ IsSpaceJS d)) ∧
    (∀ c : Char, ¬ IsWordCharJS c → ¬ IsSpaceJS c → c.toNat ≠ 8490 →
      c.toNat ≠ 304 → normalizeAddressForComparison ⟨[c]⟩ = "") ∧
    normalizeAddressForComparison ⟨[Char.ofNat 8490]⟩ = "k" ∧
    normalizeAddressForComparison ⟨[Char.ofNat 304]⟩ = "i" ∧
    normalizeAddressForComparison "_" = "_" := by
  refine ⟨fun s => ⟨normalize_char_inv s, normalize_noRun s,
    normalize_head_not s, normalize_last_not s⟩, ?_, by decide, by decide,
    by decide⟩
  intro c hw hs h2 h3
  have hlow : lowerCharJS c = [c] := by
    unfold lowerCharJS
    rw [if_neg (fun hr => hw (Or.inl hr)), if_neg h2, if_neg h3]
  have hrep : replaceCharJS c = spaceChar := by
    unfold replaceCharJS
    rw [if_neg]
    rintro (h | h)
    exacts [hw h, hs h]
  show (⟨trimJS (collapseWS false
    (([c].flatMap lowerCharJS).map replaceCharJS))⟩ : String) = ""
  rw [show ([c].flatMap lowerCharJS).map replaceCharJS = [spaceChar] by
    simp [hlow, hrep]]
  decide

/-- Witness for C5 applied at concrete characters: the letter `b` of a
normalized string is a lower-case-stable word character, and a lone `!`
normalizes to the empty string. -/
theorem normalizer_amended_witness :
    ((IsWordCharJS (Char.ofNat 98) ∧
        lowerCharJS (Char.ofNat 98) = [Char.ofNat 98]) ∨
      Char.ofNat 98 = spaceChar) ∧
    normalizeAddressForComparison ⟨[Char.ofNat 33]⟩ = "" :=
  ⟨(normalizer_amended.1 "A b!").1 (Char.ofNat 98) (by decide),
   normalizer_amended.2.1 (Char.ofNat 33) (by decide) (by decide)
     (by decide) (by decide)⟩

/-- C5 counterexample: the claim says every non-alphanumeric non-whitespace
character — including the underscore — is replaced, which would make the
underscore normalize to the empty string; the code's regex class `[^\w\s]`
excludes the underscore, so it survives normalization unchanged. -/
theorem normalizer_underscore_cex :
    normalizeAddressForComparison "_" = "_" ∧
    (normalizeAddressForComparison "_" == "") = false := by decide

/-- C6: the normalizer is idempotent — normalizing a normalized string
changes nothing. -/
theorem normalizer_idempotent (s : String) :
    normalizeAddressForComparison (normalizeAddressForComparison s) =
      normalizeAddressForComparison s := by
  have hchars := normalize_char_inv s
  have h1 : ∀ c ∈ (normalizeAddressForComparison s).data,
      lowerCharJS c = [c] := by
    intro c hc
    rcases hchars c hc with ⟨_, h⟩ | rfl
    · exact h
    · decide
  have h2 : ∀ c ∈ (normalizeAddressForComparison s).data,
      replaceCharJS c = c := by
    intro c hc
    rcases hchars c hc with ⟨hw, _⟩ | rfl
    · exact if_pos (Or.inl hw)
    · exact if_pos (Or.inr isSpaceJS_spaceChar)
  have h3 : ∀ c ∈ (normalizeAddressForComparison s).data,
      IsSpaceJS c → c = spaceChar := by
    intro c hc hs
    rcases hchars c hc with ⟨hw, _⟩ | rfl
    · exact absurd hs (word_not_space hw)
    · rfl
  show (⟨trimJS (collapseWS false
      (((normalizeAddressForComparison s).data.flatMap lowerCharJS).map
        replaceCharJS))⟩ : String) = normalizeAddressForComparison s
  rw [flatMap_fix _ _ h1, map_fix _ _ h2,
    collapseWS_fix _ h3 (normalize_noRun s),
    trimJS_fix _ (normalize_head_not s) (normalize_last_not s)]
